import Mathlib

/-!
Shallow embedding of `automated-snapshot.py` (stardothosting/aws-automated-snapshot).

Modelling conventions:
* Timestamps are naive-UTC instants measured in seconds (`Int`); `timedelta(days = d)`
  is `d * 86400` seconds.  `snap['StartTime'].replace(tzinfo=None)` strips the UTC
  time-zone marker without shifting the instant, so a snapshot's `startTime` is already
  the naive-UTC value the code compares.
* The AWS account state visible to the script is a list of self-owned snapshots
  (`describe_snapshots` is called with `OwnerIds=['self']`) plus a list of volumes.
* Every boto3 call can raise; a `Faults` record says, per call site, whether the call
  raises (and supplies the fresh snapshot id and the `datetime.utcnow()` reading for
  each loop iteration).  A raising call performs no state change.
* Exceptions are embedded by control flow: a function body guarded by `try/except`
  that catches everything is a total function whose value on the raising branch is
  what the `except` handler leaves behind.
-/

namespace AutoSnap

structure Tag where
  key : String
  value : String
deriving DecidableEq, Repr

structure Volume where
  volumeId : String
  tags : List Tag
deriving DecidableEq, Repr

structure Snapshot where
  snapshotId : String
  volumeId : String
  tags : List Tag
  startTime : Int
deriving DecidableEq, Repr

/-- The `config` dict: `tagname`, `tagvalues`, `retention_days` (optional, the code
reads it with `config.get('retention_days', 7)`), `sns_topic` (may be `None`). -/
structure Config where
  tagname : String
  tagvalues : List String
  retention_days : Option Int
  sns_topic : Option String
deriving DecidableEq, Repr

/-- Fault injection and environment-supplied data for one run: which API calls raise,
the fresh snapshot id chosen for each volume, and the `datetime.utcnow()` readings
observed by the i-th `create_snapshot` / `cleanup_snapshots` call of the main loop. -/
structure Faults where
  describeVolumesFails : Bool
  createFails : String → Bool
  newSnapId : String → String
  createTimes : Nat → Int
  describeSnapsFails : String → Bool
  deleteFails : String → Bool
  cleanupTimes : Nat → Int

/-- AWS filter `{'Name': 'tag:<tagKey>', 'Values': tagValues}`: the resource matches
iff it carries a tag whose key is `tagKey` and whose value is listed in `tagValues`. -/
def matchesTagFilter (tagKey : String) (tagValues : List String) (tags : List Tag) : Bool :=
  tags.any (fun t => t.key == tagKey && tagValues.contains t.value)

/-- `get_volumes`: `describe_volumes` filtered by `tag:config['tagname']` with values
`config['tagvalues']`; any exception is caught and the function returns `[]`. -/
def get_volumes (cfg : Config) (fails : Bool) (volumes : List Volume) : List Volume :=
  if fails then []
  else volumes.filter (fun v => matchesTagFilter cfg.tagname cfg.tagvalues v.tags)

/-- `create_snapshot(volume)`: issues `create_snapshot` with the volume's current tags
copied onto the new snapshot (`TagSpecifications`); returns the snapshot id, or `None`
when the call raises (the exception is caught inside the function). Here we return the
whole created snapshot so the world can be updated; the id is its `snapshotId`. -/
def create_snapshot (fl : Faults) (now : Int) (volume : Volume) : Option Snapshot :=
  if fl.createFails volume.volumeId then none
  else some { snapshotId := fl.newSnapId volume.volumeId,
              volumeId := volume.volumeId,
              tags := volume.tags,
              startTime := now }

/-- `describe_snapshots` inside `cleanup_snapshots`: the account's snapshots filtered
by `volume-id = vol_id` and by the same `tag:` filter as discovery. -/
def describe_snapshots (cfg : Config) (world : List Snapshot) (volId : String) : List Snapshot :=
  world.filter (fun s => s.volumeId == volId && matchesTagFilter cfg.tagname cfg.tagvalues s.tags)

/-- `now - timedelta(days = int(config.get('retention_days', 7)))`, as a window in
seconds to subtract from `now`. -/
def retentionWindow (cfg : Config) : Int :=
  (cfg.retention_days.getD 7) * 86400

/-- The `for snap in snapshots:` loop of `cleanup_snapshots`: delete each snapshot
whose `start_time < cutoff`.  A raising `delete_snapshot` propagates to the
function-level `except`, so the loop stops there; the failed call deletes nothing.
The result is the list of snapshots actually deleted, in order. -/
def deleteLoop (deleteFails : String → Bool) (cutoff : Int) : List Snapshot → List Snapshot
  | [] => []
  | s :: rest =>
    if s.startTime < cutoff then
      if deleteFails s.snapshotId then []
      else s :: deleteLoop deleteFails cutoff rest
    else deleteLoop deleteFails cutoff rest

/-- `cleanup_snapshots(volume)`: compute `cutoff = datetime.utcnow() - timedelta(days=retention_days)`,
query the volume's snapshots under the tag filter, and delete the ones strictly older
than the cutoff.  The whole body is wrapped in one `try/except`, so a raising
`describe_snapshots` yields no deletions, and a raising `delete_snapshot` stops the
loop after the deletions already performed.  Returns the deleted snapshots. -/
def cleanup_snapshots (cfg : Config) (fl : Faults) (now : Int) (world : List Snapshot)
    (volume : Volume) : List Snapshot :=
  if fl.describeSnapsFails volume.volumeId then []
  else deleteLoop fl.deleteFails (now - retentionWindow cfg)
    (describe_snapshots cfg world volume.volumeId)

/-- `send_notification(message)`: returns `(number of publish calls issued, delivered)`.
If no `sns_topic` is configured the function returns immediately with no call; a
raising `publish` is caught inside the function, so one call was issued but nothing
was delivered. -/
def send_notification (cfg : Config) (publishFails : Bool) (message : String) : Nat × Bool :=
  match cfg.sns_topic with
  | none => (0, false)
  | some _ => (1, !publishFails)

/-- Observable outcome of the per-volume loop of `main`. -/
structure LoopOut where
  snapIds : List String
  deleted : List Snapshot
  cleanedVolumes : List String
  world : List Snapshot
deriving DecidableEq, Repr

/-- The `for volume in volumes:` loop of `main`: create a snapshot for the volume
(collecting the id when creation succeeded), then run cleanup for the volume; the
world gains the created snapshot and loses the deleted ones.  `i` numbers the loop
iterations for the clock readings. -/
def processVolumes (cfg : Config) (fl : Faults) : Nat → List Snapshot → List Volume → LoopOut
  | _, world, [] => { snapIds := [], deleted := [], cleanedVolumes := [], world := world }
  | i, world, v :: rest =>
    let snapOpt := create_snapshot fl (fl.createTimes i) v
    let world1 := match snapOpt with
      | some s => world ++ [s]
      | none => world
    let dels := cleanup_snapshots cfg fl (fl.cleanupTimes i) world1 v
    let delIds := dels.map (fun s => s.snapshotId)
    let world2 := world1.filter (fun s => !(delIds.contains s.snapshotId))
    let out := processVolumes cfg fl (i + 1) world2 rest
    { snapIds := (match snapOpt with | some s => [s.snapshotId] | none => []) ++ out.snapIds,
      deleted := dels ++ out.deleted,
      cleanedVolumes := v.volumeId :: out.cleanedVolumes,
      world := out.world }

/-- `f"{len(snap_ids)} snapshot(s) created: {', '.join(snap_ids)}"`. -/
def mkMessage (snapIds : List String) : String :=
  toString snapIds.length ++ " snapshot(s) created: " ++ String.intercalate ", " snapIds

/-- Observable outcome of one run of `main`. -/
structure RunResult where
  snapIds : List String
  deleted : List Snapshot
  cleanedVolumes : List String
  world : List Snapshot
  publishCalls : Nat
  message : Option String
deriving DecidableEq, Repr

/-- `main()`: discover volumes; on an empty result log and return (no creations, no
deletions, no notification); otherwise process every volume and send one notification
whose message summarises the created snapshot ids. -/
def main (cfg : Config) (fl : Faults) (publishFails : Bool) (volumes : List Volume)
    (world : List Snapshot) : RunResult :=
  let vols := get_volumes cfg fl.describeVolumesFails volumes
  if vols.isEmpty then
    { snapIds := [], deleted := [], cleanedVolumes := [], world := world,
      publishCalls := 0, message := none }
  else
    let out := processVolumes cfg fl 0 world vols
    let msg := if out.snapIds.isEmpty then "No snapshots created." else mkMessage out.snapIds
    { snapIds := out.snapIds, deleted := out.deleted, cleanedVolumes := out.cleanedVolumes,
      world := out.world, publishCalls := (send_notification cfg publishFails msg).1,
      message := some msg }

/-- The retention decision isolated from I/O: of the given snapshots, the ones that
both match the tag filter and were created strictly before `now` minus the retention
window.  This is the qualification test the cleanup loop applies. -/
def retentionDeleteSet (tagKey : String) (tagValues : List String) (retentionDays : Int)
    (now : Int) (snaps : List Snapshot) : List Snapshot :=
  snaps.filter (fun s =>
    matchesTagFilter tagKey tagValues s.tags && decide (s.startTime < now - retentionDays * 86400))

/-! ## Helper lemmas -/

theorem deleteLoop_no_fail (df : String → Bool) (c : Int) (l : List Snapshot)
    (h : ∀ x, df x = false) :
    deleteLoop df c l = l.filter (fun s => decide (s.startTime < c)) := by
  induction l with
  | nil => rfl
  | cons s rest ih =>
    simp only [deleteLoop, h, List.filter_cons]
    by_cases hs : s.startTime < c
    · simp [hs, ih]
    · simp [hs, ih]

/-! ## Claims -/

/-- Claim C1: during cleanup of a volume (with no API failure injected), a snapshot
of that volume is deleted iff it carries a tag with the configured key whose value is
in the configured value set and its creation instant is strictly before
`now - retention_days` days; in particular a snapshot created exactly at the cutoff
instant is retained. -/
theorem c1_retention_iff (cfg : Config) (fl : Faults) (now : Int) (world : List Snapshot)
    (v : Volume) (s : Snapshot)
    (hdesc : fl.describeSnapsFails v.volumeId = false)
    (hdel : ∀ x, fl.deleteFails x = false)
    (hs : s ∈ world) (hvol : s.volumeId = v.volumeId) :
    (s ∈ cleanup_snapshots cfg fl now world v ↔
      (matchesTagFilter cfg.tagname cfg.tagvalues s.tags = true ∧
        s.startTime < now - retentionWindow cfg)) ∧
    (s.startTime = now - retentionWindow cfg →
      s ∉ cleanup_snapshots cfg fl now world v) := by
  have hmain : s ∈ cleanup_snapshots cfg fl now world v ↔
      (matchesTagFilter cfg.tagname cfg.tagvalues s.tags = true ∧
        s.startTime < now - retentionWindow cfg) := by
    unfold cleanup_snapshots
    rw [hdesc, deleteLoop_no_fail _ _ _ hdel]
    simp [describe_snapshots, List.mem_filter, hs, hvol, and_comm]
  refine ⟨hmain, fun heq hmem => ?_⟩
  have hlt := (hmain.mp hmem).2
  rw [heq] at hlt
  exact lt_irrefl _ hlt

def cfgW1 : Config :=
  { tagname := "Snapshot", tagvalues := ["Yes"], retention_days := some 7, sns_topic := none }

def flW1 : Faults :=
  { describeVolumesFails := false, createFails := fun _ => false,
    newSnapId := fun v => v ++ "-snap", createTimes := fun _ => 0,
    describeSnapsFails := fun _ => false, deleteFails := fun _ => false,
    cleanupTimes := fun _ => 0 }

def vW1 : Volume := { volumeId := "vol-1", tags := [{ key := "Snapshot", value := "Yes" }] }

def sW1 : Snapshot :=
  { snapshotId := "snap-old", volumeId := "vol-1",
    tags := [{ key := "Snapshot", value := "Yes" }], startTime := 0 }

theorem c1_retention_iff_witness :
    (sW1 ∈ cleanup_snapshots cfgW1 flW1 1000000 [sW1] vW1 ↔
      (matchesTagFilter cfgW1.tagname cfgW1.tagvalues sW1.tags = true ∧
        sW1.startTime < 1000000 - retentionWindow cfgW1)) ∧
    (sW1.startTime = 1000000 - retentionWindow cfgW1 →
      sW1 ∉ cleanup_snapshots cfgW1 flW1 1000000 [sW1] vW1) :=
  c1_retention_iff cfgW1 flW1 1000000 [sW1] vW1 sW1 rfl (fun _ => rfl) (by decide) rfl

def cfgC2 : Config :=
  { tagname := "Snapshot", tagvalues := ["Yes"], retention_days := some 7, sns_topic := none }

def flC2 : Faults :=
  { describeVolumesFails := false, createFails := fun _ => true,
    newSnapId := fun v => v ++ "-snap", createTimes := fun _ => 0,
    describeSnapsFails := fun _ => false, deleteFails := fun _ => false,
    cleanupTimes := fun i => if i == 0 then 1000000 else 2000000 }

def v1C2 : Volume := { volumeId := "v1", tags := [{ key := "Snapshot", value := "Yes" }] }

def v2C2 : Volume := { volumeId := "v2", tags := [{ key := "Snapshot", value := "Yes" }] }

def s1C2 : Snapshot :=
  { snapshotId := "s1", volumeId := "v1",
    tags := [{ key := "Snapshot", value := "Yes" }], startTime := 500000 }

def s2C2 : Snapshot :=
  { snapshotId := "s2", volumeId := "v2",
    tags := [{ key := "Snapshot", value := "Yes" }], startTime := 500000 }

/-- Claim C2, counterexample: the clock advances between the two volumes' cleanup
calls (reading 1000000, then 2000000).  Snapshots `s1` (volume v1) and `s2` (volume
v2) have identical creation instants and identical tags, yet the run deletes exactly
`s2`: no single per-run cutoff decides both the same way, so the cutoff is not
computed once per run.  Freezing the clock at the first reading deletes nothing. -/
theorem c2_single_cutoff_cex :
    (main cfgC2 flC2 false [v1C2, v2C2] [s1C2, s2C2]).deleted.map (fun s => s.snapshotId)
        = ["s2"] ∧
    (main cfgC2 { flC2 with cleanupTimes := fun _ => flC2.cleanupTimes 0 } false
        [v1C2, v2C2] [s1C2, s2C2]).deleted.map (fun s => s.snapshotId) = [] ∧
    s1C2.startTime = s2C2.startTime ∧ s1C2.tags = s2C2.tags := by decide

/-- Claim C2 (amended): the retention cutoff is recomputed from the current clock at
each volume's cleanup call (`now_i - window`), not once per run; all snapshots of one
volume share that call's single cutoff, and whenever every cleanup call of the run
observes the same clock reading, the whole run behaves exactly as if judged against
one single cutoff. -/
theorem c2_single_cutoff_amended (cfg : Config) (fl : Faults) (pb : Bool)
    (volumes : List Volume) (world : List Snapshot) (n0 : Int)
    (h : ∀ i, fl.cleanupTimes i = n0) :
    main cfg fl pb volumes world =
      main cfg { fl with cleanupTimes := fun _ => fl.cleanupTimes 0 } pb volumes world := by
  have he : (fun _ : Nat => fl.cleanupTimes 0) = fl.cleanupTimes :=
    funext fun i => (h 0).trans (h i).symm
  rw [he]

def flC2const : Faults :=
  { describeVolumesFails := false, createFails := fun _ => true,
    newSnapId := fun v => v ++ "-snap", createTimes := fun _ => 0,
    describeSnapsFails := fun _ => false, deleteFails := fun _ => false,
    cleanupTimes := fun _ => 1000000 }

theorem c2_single_cutoff_amended_witness :
    main cfgC2 flC2const false [v1C2, v2C2] [s1C2, s2C2] =
      main cfgC2 { flC2const with cleanupTimes := fun _ => flC2const.cleanupTimes 0 } false
        [v1C2, v2C2] [s1C2, s2C2] :=
  c2_single_cutoff_amended cfgC2 flC2const false [v1C2, v2C2] [s1C2, s2C2] 1000000
    (fun _ => rfl)

theorem deleteLoop_fail_abort (df : String → Bool) (c : Int) (l1 l2 : List Snapshot)
    (sbad : Snapshot)
    (h1 : ∀ s ∈ l1, df s.snapshotId = false)
    (hb1 : sbad.startTime < c) (hb2 : df sbad.snapshotId = true) :
    deleteLoop df c (l1 ++ sbad :: l2) = l1.filter (fun s => decide (s.startTime < c)) := by
  induction l1 with
  | nil => simp [deleteLoop, hb1, hb2]
  | cons a rest ih =>
    have ha : df a.snapshotId = false := h1 a (List.mem_cons_self a rest)
    have hrest : ∀ s ∈ rest, df s.snapshotId = false :=
      fun s hs => h1 s (List.mem_cons_of_mem a hs)
    simp only [List.cons_append, deleteLoop, ha, List.filter_cons]
    by_cases hsa : a.startTime < c
    · simp [hsa, ih hrest]
    · simp [hsa, ih hrest]

def cfgC3 : Config :=
  { tagname := "Snapshot", tagvalues := ["Yes"], retention_days := some 7, sns_topic := none }

def flC3 : Faults :=
  { describeVolumesFails := false, createFails := fun _ => true,
    newSnapId := fun v => v ++ "-snap", createTimes := fun _ => 0,
    describeSnapsFails := fun _ => false, deleteFails := fun x => x == "s1",
    cleanupTimes := fun _ => 1000000 }

def vC3 : Volume := { volumeId := "v1", tags := [{ key := "Snapshot", value := "Yes" }] }

def s1C3 : Snapshot :=
  { snapshotId := "s1", volumeId := "v1",
    tags := [{ key := "Snapshot", value := "Yes" }], startTime := 0 }

def s2C3 : Snapshot :=
  { snapshotId := "s2", volumeId := "v1",
    tags := [{ key := "Snapshot", value := "Yes" }], startTime := 0 }

/-- Claim C3, counterexample: snapshots `s1`, `s2` of the same volume are both
deletion-eligible, the delete of `s1` raises, and `s2`'s own delete would not fail;
yet nothing at all is deleted.  The exception is caught at the volume scope (the one
`try/except` wraps the whole loop), so the remaining eligible snapshots of the same
volume are NOT processed after one delete fails. -/
theorem c3_per_snapshot_catch_cex :
    flC3.deleteFails "s2" = false ∧
    s2C3 ∈ describe_snapshots cfgC3 [s1C3, s2C3] "v1" ∧
    s2C3.startTime < 1000000 - retentionWindow cfgC3 ∧
    cleanup_snapshots cfgC3 flC3 1000000 [s1C3, s2C3] vC3 = [] := by decide

/-- Claim C3 (amended): a failing individual delete is caught at the volume scope,
not per snapshot: the deletions already performed for that volume stand, and the
remaining snapshots of that volume — eligible or not — are skipped for this run. -/
theorem c3_per_snapshot_catch_amended (cfg : Config) (fl : Faults) (now : Int)
    (world : List Snapshot) (v : Volume) (l1 l2 : List Snapshot) (sbad : Snapshot)
    (hdesc : fl.describeSnapsFails v.volumeId = false)
    (hsplit : describe_snapshots cfg world v.volumeId = l1 ++ sbad :: l2)
    (h1 : ∀ s ∈ l1, fl.deleteFails s.snapshotId = false)
    (hb1 : sbad.startTime < now - retentionWindow cfg)
    (hb2 : fl.deleteFails sbad.snapshotId = true) :
    cleanup_snapshots cfg fl now world v =
      l1.filter (fun s => decide (s.startTime < now - retentionWindow cfg)) := by
  unfold cleanup_snapshots
  rw [hdesc, hsplit, deleteLoop_fail_abort _ _ _ _ _ h1 hb1 hb2]
  simp

theorem c3_per_snapshot_catch_amended_witness :
    cleanup_snapshots cfgC3 flC3 1000000 [s1C3, s2C3] vC3 =
      List.filter (fun s => decide (s.startTime < 1000000 - retentionWindow cfgC3)) [] :=
  c3_per_snapshot_catch_amended cfgC3 flC3 1000000 [s1C3, s2C3] vC3 [] [s2C3] s1C3
    rfl (by decide) (by simp) (by decide) (by decide)

/-- Claim C4: a volume whose snapshot creation fails is still passed to cleanup, the
failure does not affect other volumes, and when creation fails for `v1` but succeeds
for `v2` the run's collected ids are exactly `v2`'s new snapshot id while cleanup
executes for both volumes. -/
theorem c4_create_failure_isolated (cfg : Config) (fl : Faults) (world : List Snapshot)
    (v1 v2 : Volume)
    (h1 : fl.createFails v1.volumeId = true)
    (h2 : fl.createFails v2.volumeId = false) :
    (processVolumes cfg fl 0 world [v1, v2]).snapIds = [fl.newSnapId v2.volumeId] ∧
    (processVolumes cfg fl 0 world [v1, v2]).cleanedVolumes = [v1.volumeId, v2.volumeId] := by
  constructor
  · simp [processVolumes, create_snapshot, h1, h2]
  · simp [processVolumes]

def cfgC4 : Config :=
  { tagname := "Snapshot", tagvalues := ["Yes"], retention_days := some 7, sns_topic := none }

def flC4 : Faults :=
  { describeVolumesFails := false, createFails := fun x => x == "v1",
    newSnapId := fun v => v ++ "-snap", createTimes := fun _ => 10,
    describeSnapsFails := fun _ => false, deleteFails := fun _ => false,
    cleanupTimes := fun _ => 10 }

def v1C4 : Volume := { volumeId := "v1", tags := [{ key := "Snapshot", value := "Yes" }] }

def v2C4 : Volume := { volumeId := "v2", tags := [{ key := "Snapshot", value := "Yes" }] }

theorem c4_create_failure_isolated_witness :
    (processVolumes cfgC4 flC4 0 [] [v1C4, v2C4]).snapIds = [flC4.newSnapId v2C4.volumeId] ∧
    (processVolumes cfgC4 flC4 0 [] [v1C4, v2C4]).cleanedVolumes
      = [v1C4.volumeId, v2C4.volumeId] :=
  c4_create_failure_isolated cfgC4 flC4 [] v1C4 v2C4 (by decide) (by decide)

/-- Claim C5: if volume discovery fails, the run terminates early: no volume is
processed (so no create-snapshot and no delete-snapshot call is issued, and the
snapshot world is unchanged) and no notification is published. -/
theorem c5_discovery_failure_fail_fast (cfg : Config) (fl : Faults) (pb : Bool)
    (volumes : List Volume) (world : List Snapshot)
    (h : fl.describeVolumesFails = true) :
    main cfg fl pb volumes world =
      { snapIds := [], deleted := [], cleanedVolumes := [], world := world,
        publishCalls := 0, message := none } := by
  simp [main, get_volumes, h]

def cfgC5 : Config :=
  { tagname := "Snapshot", tagvalues := ["Yes"], retention_days := some 7,
    sns_topic := some "arn:aws:sns:topic" }

def flC5 : Faults :=
  { describeVolumesFails := true, createFails := fun _ => false,
    newSnapId := fun v => v ++ "-snap", createTimes := fun _ => 10,
    describeSnapsFails := fun _ => false, deleteFails := fun _ => false,
    cleanupTimes := fun _ => 10 }

def v1C5 : Volume := { volumeId := "v1", tags := [{ key := "Snapshot", value := "Yes" }] }

def s1C5 : Snapshot :=
  { snapshotId := "s1", volumeId := "v1",
    tags := [{ key := "Snapshot", value := "Yes" }], startTime := 0 }

theorem c5_discovery_failure_fail_fast_witness :
    main cfgC5 flC5 false [v1C5] [s1C5] =
      { snapIds := [], deleted := [], cleanedVolumes := [], world := [s1C5],
        publishCalls := 0, message := none } :=
  c5_discovery_failure_fail_fast cfgC5 flC5 false [v1C5] [s1C5] rfl

/-- Claim C6: if discovery succeeds but no volume matches the tag filter, the run
terminates normally with zero creations and zero deletions, and skips notification
content generation entirely (no message is built, no publish call is made). -/
theorem c6_empty_inventory (cfg : Config) (fl : Faults) (pb : Bool)
    (volumes : List Volume) (world : List Snapshot)
    (hok : fl.describeVolumesFails = false)
    (hempty : volumes.filter (fun v => matchesTagFilter cfg.tagname cfg.tagvalues v.tags) = []) :
    main cfg fl pb volumes world =
      { snapIds := [], deleted := [], cleanedVolumes := [], world := world,
        publishCalls := 0, message := none } := by
  simp [main, get_volumes, hok, hempty]

def cfgC6 : Config :=
  { tagname := "Snapshot", tagvalues := ["Yes"], retention_days := some 7,
    sns_topic := some "arn:aws:sns:topic" }

def flC6 : Faults :=
  { describeVolumesFails := false, createFails := fun _ => false,
    newSnapId := fun v => v ++ "-snap", createTimes := fun _ => 10,
    describeSnapsFails := fun _ => false, deleteFails := fun _ => false,
    cleanupTimes := fun _ => 10 }

def v1C6 : Volume := { volumeId := "v1", tags := [{ key := "Backup", value := "No" }] }

def s1C6 : Snapshot :=
  { snapshotId := "s1", volumeId := "v1",
    tags := [{ key := "Snapshot", value := "Yes" }], startTime := 0 }

theorem c6_empty_inventory_witness :
    main cfgC6 flC6 false [v1C6] [s1C6] =
      { snapIds := [], deleted := [], cleanedVolumes := [], world := [s1C6],
        publishCalls := 0, message := none } :=
  c6_empty_inventory cfgC6 flC6 false [v1C6] [s1C6] rfl (by decide)

/-- Claim C7: for a discovered volume whose create-snapshot call succeeds, the
created snapshot carries a copy of the volume's current tags; hence it matches the
same configured tag filter and is visible to a future retention-policy query
(`describe_snapshots`) for that volume in any world containing it. -/
theorem c7_tag_copy (cfg : Config) (fl : Faults) (pool : List Volume)
    (v : Volume) (t : Int) (w : List Snapshot)
    (hv : v ∈ get_volumes cfg false pool)
    (hc : fl.createFails v.volumeId = false) :
    ∃ s, create_snapshot fl t v = some s ∧ s.tags = v.tags ∧
      matchesTagFilter cfg.tagname cfg.tagvalues s.tags = true ∧
      (s ∈ w → s ∈ describe_snapshots cfg w v.volumeId) := by
  have hmatch : matchesTagFilter cfg.tagname cfg.tagvalues v.tags = true := by
    simp [get_volumes, List.mem_filter] at hv
    exact hv.2
  refine ⟨{ snapshotId := fl.newSnapId v.volumeId, volumeId := v.volumeId,
            tags := v.tags, startTime := t }, ?_, rfl, hmatch, ?_⟩
  · simp [create_snapshot, hc]
  · intro hw
    simp [describe_snapshots, List.mem_filter, hw, hmatch]

def cfgC7 : Config :=
  { tagname := "Snapshot", tagvalues := ["Yes"], retention_days := some 7, sns_topic := none }

def flC7 : Faults :=
  { describeVolumesFails := false, createFails := fun _ => false,
    newSnapId := fun v => v ++ "-snap", createTimes := fun _ => 99,
    describeSnapsFails := fun _ => false, deleteFails := fun _ => false,
    cleanupTimes := fun _ => 99 }

def vC7 : Volume := { volumeId := "v1", tags := [{ key := "Snapshot", value := "Yes" }] }

def sNewC7 : Snapshot :=
  { snapshotId := "v1-snap", volumeId := "v1",
    tags := [{ key := "Snapshot", value := "Yes" }], startTime := 99 }

theorem c7_tag_copy_witness :
    ∃ s, create_snapshot flC7 99 vC7 = some s ∧ s.tags = vC7.tags ∧
      matchesTagFilter cfgC7.tagname cfgC7.tagvalues s.tags = true ∧
      (s ∈ [sNewC7] → s ∈ describe_snapshots cfgC7 [sNewC7] vC7.volumeId) :=
  c7_tag_copy cfgC7 flC7 [vC7] vC7 99 [sNewC7] (by decide) rfl

/-- Claim C8: with no `sns_topic` configured, the notification phase issues no
publish call and raises no error; with a topic configured, a publish failure is
caught inside `send_notification` (exactly one call was issued, nothing delivered,
the function still returns), and the run's outcome is independent of whether
delivery failed. -/
theorem c8_notification (cfg : Config) (fl : Faults) (b b2 : Bool) (m : String)
    (volumes : List Volume) (world : List Snapshot) :
    (cfg.sns_topic = none → send_notification cfg b m = (0, false)) ∧
    (∀ t, cfg.sns_topic = some t → send_notification cfg true m = (1, false)) ∧
    main cfg fl b volumes world = main cfg fl b2 volumes world := by
  refine ⟨fun h => by simp [send_notification, h],
          fun t h => by simp [send_notification, h], ?_⟩
  cases h : cfg.sns_topic <;> simp [main, send_notification, h]

def cfgC8n : Config :=
  { tagname := "Snapshot", tagvalues := ["Yes"], retention_days := some 7, sns_topic := none }

def cfgC8s : Config :=
  { tagname := "Snapshot", tagvalues := ["Yes"], retention_days := some 7,
    sns_topic := some "arn:aws:sns:topic" }

def flC8 : Faults :=
  { describeVolumesFails := false, createFails := fun _ => false,
    newSnapId := fun v => v ++ "-snap", createTimes := fun _ => 5,
    describeSnapsFails := fun _ => false, deleteFails := fun _ => false,
    cleanupTimes := fun _ => 5 }

theorem c8_notification_witness :
    send_notification cfgC8n true "m" = (0, false) ∧
    send_notification cfgC8s true "m" = (1, false) ∧
    main cfgC8s flC8 true [] [] = main cfgC8s flC8 false [] [] :=
  ⟨(c8_notification cfgC8n flC8 true false "m" [] []).1 rfl,
   (c8_notification cfgC8s flC8 true false "m" [] []).2.1 "arn:aws:sns:topic" rfl,
   (c8_notification cfgC8s flC8 true false "m" [] []).2.2⟩

/-- Claim C9: the retention decision is a pure function of (snapshot set, tag key,
tag value set, retention days, now): evaluating it twice on the same fixed input
yields the same deletion set, and a failure-free cleanup run computes exactly this
function on the volume's snapshots. -/
theorem c9_retention_pure (tagKey : String) (tagValues : List String) (d now : Int)
    (snaps : List Snapshot) (cfg : Config) (fl : Faults) (w : List Snapshot)
    (v : Volume) :
    retentionDeleteSet tagKey tagValues d now snaps
      = retentionDeleteSet tagKey tagValues d now snaps ∧
    cleanup_snapshots cfg
        { fl with describeSnapsFails := fun _ => false, deleteFails := fun _ => false }
        now w v
      = retentionDeleteSet cfg.tagname cfg.tagvalues (cfg.retention_days.getD 7) now
          (w.filter (fun s => s.volumeId == v.volumeId)) := by
  refine ⟨rfl, ?_⟩
  show (if false = true then [] else _) = _
  rw [if_neg (by simp)]
  rw [deleteLoop_no_fail _ _ _ (fun _ => rfl)]
  unfold describe_snapshots retentionDeleteSet retentionWindow
  rw [List.filter_filter]
  induction w with
  | nil => rfl
  | cons s rest ih =>
    rw [List.filter_cons, List.filter_cons, ih]
    cases hv : s.volumeId == v.volumeId <;>
      cases ht : matchesTagFilter cfg.tagname cfg.tagvalues s.tags <;>
      cases hs : decide (s.startTime < now - cfg.retention_days.getD 7 * 86400) <;>
      simp [hv, ht, hs]

/-- Claim C10: a discovery failure is converted into the empty volume list
(`get_volumes` returns `[]` on any exception), so a failed discovery is
observationally identical downstream to an empty inventory: the run takes the same
early-return path with no creations, no deletions and no notification, and completes
normally. -/
theorem c10_failure_equals_empty (cfg : Config) (fl : Faults) (pb : Bool)
    (volumes : List Volume) (world : List Snapshot) :
    get_volumes cfg true volumes = [] ∧
    main cfg { fl with describeVolumesFails := true } pb volumes world
      = main cfg fl pb [] world := by
  refine ⟨rfl, ?_⟩
  cases h : fl.describeVolumesFails <;> simp [main, get_volumes, h]

end AutoSnap
